import Mathlib

/-!
Shallow embedding of `src/worker/worker.js` (ggazzo/rust-image-worker).

The worker is a Cloudflare-style edge handler: `handleRequest` gates on the
HTTP method, probes a response cache, validates the query string into a
transform spec (`getParams`), probes/fills an origin cache, fetches the
origin image, and hands the bytes to an external wasm transform engine.

JavaScript numbers are modelled by `JsNum` (NaN, the two infinities, or a
finite value represented exactly as a rational); the JS comparison
operators on them are modelled by `jsGt`/`jsLt`/`jsGe`/`jsLe`, all of which
are false whenever NaN is involved, and `===` by `jsStrictEq` (false on
NaN vs NaN).  `parseInt(s, 10)`, `parseInt(s, 16)` and `parseFloat(s)` are
modelled by `jsParseInt`, `jsParseHex` and `jsParseFloat`.  The platform's
WHATWG `URL` constructor is modelled by `jsParseURL` (succeeds exactly on
strings that start with a scheme followed by a colon; `toString` is the
identity).  Stateful platform pieces (the cache, `fetch`, the wasm engine)
are modelled explicitly in the orchestration section below.
-/

/-- A JavaScript number: NaN, +Infinity, -Infinity, or a finite value
(modelled exactly as a rational; IEEE rounding is irrelevant to the
properties proved here). -/
inductive JsNum where
  | nan
  | inf
  | negInf
  | fin (q : Rat)
deriving DecidableEq

/-- JS `a > b`: false whenever either side is NaN. -/
def jsGt : JsNum → JsNum → Bool
  | JsNum.fin a, JsNum.fin b => decide (b < a)
  | JsNum.fin _, JsNum.inf => false
  | JsNum.fin _, JsNum.negInf => true
  | JsNum.inf, JsNum.fin _ => true
  | JsNum.inf, JsNum.inf => false
  | JsNum.inf, JsNum.negInf => true
  | JsNum.negInf, _ => false
  | _, _ => false

/-- JS `a < b`. -/
def jsLt (a b : JsNum) : Bool := jsGt b a

/-- JS `a >= b`: false whenever either side is NaN. -/
def jsGe : JsNum → JsNum → Bool
  | JsNum.fin a, JsNum.fin b => decide (b ≤ a)
  | JsNum.fin _, JsNum.inf => false
  | JsNum.fin _, JsNum.negInf => true
  | JsNum.inf, JsNum.fin _ => true
  | JsNum.inf, JsNum.inf => true
  | JsNum.inf, JsNum.negInf => true
  | JsNum.negInf, JsNum.negInf => true
  | JsNum.negInf, _ => false
  | _, _ => false

/-- JS `a <= b`. -/
def jsLe (a b : JsNum) : Bool := jsGe b a

/-- JS `===` on numbers: in particular `NaN === NaN` is false. -/
def jsStrictEq : JsNum → JsNum → Bool
  | JsNum.fin a, JsNum.fin b => decide (a = b)
  | JsNum.inf, JsNum.inf => true
  | JsNum.negInf, JsNum.negInf => true
  | _, _ => false

/-- JS truthiness of a number: NaN and 0 are falsy, everything else truthy. -/
def jsTruthy : JsNum → Bool
  | JsNum.nan => false
  | JsNum.fin a => decide (a ≠ 0)
  | _ => true

/-- Drop leading whitespace, as `parseInt` / `parseFloat` do. -/
def stripWs (l : List Char) : List Char := l.dropWhile (fun c => c.isWhitespace)

/-- Optional leading sign, returning the sign factor and the rest. -/
def jsSign : List Char → Int × List Char
  | '-' :: r => (-1, r)
  | '+' :: r => (1, r)
  | l => (1, l)

/-- Decimal digit value of a character, if any. -/
def decDigit? (c : Char) : Option Nat :=
  if c.isDigit then some (c.toNat - 48) else none

/-- Hexadecimal digit value of a character, if any. -/
def hexDigit? (c : Char) : Option Nat :=
  if c.isDigit then some (c.toNat - 48)
  else if 'a' ≤ c ∧ c ≤ 'f' then some (c.toNat - 87)
  else if 'A' ≤ c ∧ c ≤ 'F' then some (c.toNat - 55)
  else none

/-- Value of a digit string in the given radix. -/
def digitsToNat (radix : Nat) (ds : List Nat) : Nat :=
  ds.foldl (fun a d => a * radix + d) 0

/-- `parseInt(s, 10)`: optional whitespace and sign, then the longest prefix
of decimal digits; NaN if there is none. -/
def jsParseInt (s : String) : JsNum :=
  let l := stripWs s.toList
  let sg := (jsSign l).1
  let l1 := (jsSign l).2
  let ds := (l1.takeWhile (fun c => (decDigit? c).isSome)).filterMap decDigit?
  if ds.isEmpty then JsNum.nan
  else JsNum.fin ((sg * Int.ofNat (digitsToNat 10 ds) : Int) : Rat)

/-- `parseInt(s, 16)`: like `jsParseInt` but hexadecimal, with an optional
`0x`/`0X` prefix. -/
def jsParseHex (s : String) : JsNum :=
  let l := stripWs s.toList
  let sg := (jsSign l).1
  let l1 := (jsSign l).2
  let l2 := match l1 with
    | '0' :: 'x' :: r => r
    | '0' :: 'X' :: r => r
    | _ => l1
  let ds := (l2.takeWhile (fun c => (hexDigit? c).isSome)).filterMap hexDigit?
  if ds.isEmpty then JsNum.nan
  else JsNum.fin ((sg * Int.ofNat (digitsToNat 16 ds) : Int) : Rat)

/-- Exponent part of a `parseFloat` literal: optional sign then digits;
an exponent with no digits contributes nothing (JS stops parsing there). -/
def expPart (l : List Char) : Int :=
  let es := (jsSign l).1
  let l1 := (jsSign l).2
  let ds := l1.takeWhile Char.isDigit
  if ds.isEmpty then 0 else es * Int.ofNat (digitsToNat 10 (ds.filterMap decDigit?))

/-- `parseFloat(s)`: optional whitespace and sign, then `Infinity` or a
decimal literal `digits [. digits] [e|E [sign] digits]`; NaN when no digit
is found.  The value `sign * digits(ip fp) * 10 ^ (exp - |fp|)` is computed
with integer arithmetic and converted to an exact rational once at the
end. -/
def jsParseFloat (s : String) : JsNum :=
  let l := stripWs s.toList
  let sg := (jsSign l).1
  let l1 := (jsSign l).2
  if "Infinity".toList.isPrefixOf l1 then
    (if sg < 0 then JsNum.negInf else JsNum.inf)
  else
    let ip := l1.takeWhile Char.isDigit
    let r1 := l1.drop ip.length
    let fp := match r1 with
      | '.' :: r => r.takeWhile Char.isDigit
      | _ => []
    let r2 := match r1 with
      | '.' :: r => r.drop (r.takeWhile Char.isDigit).length
      | _ => r1
    if ip.isEmpty ∧ fp.isEmpty then JsNum.nan
    else
      let n := digitsToNat 10 ((ip ++ fp).filterMap decDigit?)
      let ex : Int := (match r2 with
        | 'e' :: r3 => expPart r3
        | 'E' :: r3 => expPart r3
        | _ => 0) - Int.ofNat fp.length
      match ex with
      | Int.ofNat k => JsNum.fin ((sg * Int.ofNat (n * 10 ^ k) : Int) : Rat)
      | Int.negSucc k => JsNum.fin (mkRat (sg * Int.ofNat n) (10 ^ (k + 1)))

/-- ASCII lowercasing, modelling `String.prototype.toLowerCase` on the
ASCII inputs relevant here. -/
def jsToLower (s : String) : String := String.mk (s.toList.map Char.toLower)

/-- Characters allowed after the first character of a URL scheme. -/
def schemeTailChar (c : Char) : Bool := c.isAlphanum || c = '+' || c = '-' || c = '.'

/-- Model of the WHATWG `URL` constructor used by `new URL(s)`: it succeeds
exactly when `s` starts with a scheme (letter, then letters, digits, `+`,
`-` or `.`) followed by a colon, and `toString` is modelled as the
identity. -/
def jsParseURL (s : String) : Option String :=
  match s.toList with
  | [] => none
  | c :: rest =>
    if c.isAlpha ∧ (rest.dropWhile schemeTailChar).head? = some ':' then some s else none

/-- An inbound HTTP request: the method, the pathname of its URL, and its
decoded query parameters in order. -/
structure Request where
  method : String
  path : String
  query : List (String × String)
deriving DecidableEq

/-- `searchParams.get(name)`: value of the first parameter with that name.
`searchParams.has(name)` is `(getParam q name).isSome`. -/
def getParam (q : List (String × String)) (name : String) : Option String :=
  (q.find? (fun e => decide (e.1 = name))).map (fun e => e.2)

/-! ## The worker's validation code (`worker.js` lines 61-201) -/

/-- `worker.js` line 61: the ordered valid output formats. -/
def VALID_FORMATS : List String := ["png", "jpg", "jpeg"]

/-- `worker.js` line 62: the valid fit modes. -/
def VALID_MODES : List String := ["fill", "fit", "limit"]

/-- Whether a character matches the regex class `\w`. -/
def isWordChar (c : Char) : Bool := c.isAlphanum || c = '_'

/-- `getUrlExt` (lines 169-172): match `/\.(\w+)$/` against the pathname and
lowercase the captured extension. -/
def getUrlExt (path : String) : Option String :=
  let rev := path.toList.reverse
  let extRev := rev.takeWhile isWordChar
  if extRev.isEmpty then none
  else match rev.drop extRev.length with
    | '.' :: _ => some (jsToLower (String.mk extRev.reverse))
    | _ => none

/-- Expansion of a 3-digit hex shorthand by doubling each character
(lines 176-179). -/
def expandHex (s : String) : String :=
  String.join (s.toList.map (fun c => String.mk [c, c]))

/-- The loop body of `getColor` (lines 183-189).  Note two faithful quirks of
the source: the slice is always `hexStr.slice(0, 2)` (the loop index is
unused), and the `hex === NaN` test is JS `===`, which is never true. -/
def getColorLoop (h : String) : Nat → List JsNum → Option (List JsNum)
  | 0, acc => some acc.reverse
  | Nat.succ n, acc =>
    let hex := jsParseHex (h.take 2)
    if jsStrictEq hex JsNum.nan then none
    else getColorLoop h n (hex :: acc)

/-- `getColor` (lines 174-192): expand a 3-character string, then parse a
6-character string into three values; any other length yields `undefined`
(`none`). -/
def getColor (hexStr : String) : Option (List JsNum) :=
  let h := if hexStr.length = 3 then expandHex hexStr else hexStr
  if h.length = 6 then getColorLoop h 3 [] else none

/-- `getMimeType` (lines 194-201): the lookup object `{png, jpg}` indexed by
a possibly-undefined format name, with `|| "application/octet-stream"`. -/
def getMimeType (format : Option String) : String :=
  match format with
  | some f =>
    match ([("png", "image/png"), ("jpg", "image/jpeg")].find? (fun e => decide (e.1 = f))) with
    | some e => e.2
    | none => "application/octet-stream"
  | none => "application/octet-stream"

/-- Error message pushed at lines 87-89. -/
def formatMsg (f : String) : String :=
  "image .extension must be one of " ++ f ++ " " ++ String.intercalate ", " VALID_FORMATS

/-- Error message pushed at line 96. -/
def qualityMsg : String := "quality must be a number between 40 and 100"

/-- Error message pushed at line 107. -/
def originMsg : String := "origin must be a valid image URL"

/-- Error message pushed at line 113. -/
def widthMsg : String := "width must be a positive number"

/-- Error message pushed at line 120. -/
def heightMsg : String := "height must be a positive number"

/-- Error message pushed at line 125. -/
def sizeMsg : String := "width and/or height must be provided"

/-- Error message pushed at line 131. -/
def dxMsg : String := "dx must be a number between -1.0 and 1.0 (default: 0)"

/-- Error message pushed at line 138. -/
def dyMsg : String := "dy must be between -1.0 and 1.0 (default: 0)"

/-- Error message pushed at line 145. -/
def scaleMsg : String := "scale must be a non-zero number up to 10 (default: 1)"

/-- Error message pushed at line 154. -/
def modeMsg : String := "mode must be one of " ++ String.intercalate ", " VALID_MODES

/-- Error message pushed at line 162. -/
def bgMsg : String := "bg must be a valid hex color between 000 and ffffff"

/-- `params.format` after lines 83-85: the lowercased path extension, or the
default `""`. -/
def formatField (path : String) : String :=
  match getUrlExt path with
  | some f => f
  | none => ""

/-- Errors contributed by lines 84-91: an extension outside `VALID_FORMATS`. -/
def formatErrs (path : String) : List String :=
  match getUrlExt path with
  | some f => if f ∈ VALID_FORMATS then [] else [formatMsg f]
  | none => []

/-- `params.quality` after lines 93-94: `parseInt` of the parameter when
present (NaN included), default 90. -/
def qualityField (q : List (String × String)) : JsNum :=
  match getParam q "quality" with
  | some s => jsParseInt s
  | none => JsNum.fin 90

/-- Errors contributed by lines 95-97: pushed when
`quality > 100 || quality < 40` is true (so never for NaN). -/
def qualityErrs (q : List (String × String)) : List String :=
  match getParam q "quality" with
  | some s =>
    if jsGt (jsParseInt s) (JsNum.fin 100) || jsLt (jsParseInt s) (JsNum.fin 40)
    then [qualityMsg] else []
  | none => []

/-- `params.origin` after lines 100-104: the parsed URL when present and
parsable, otherwise the falsy default `""` (`none`). -/
def originField (q : List (String × String)) : Option String :=
  match getParam q "origin" with
  | some s => jsParseURL s
  | none => none

/-- Errors contributed by lines 106-108: the unconditional
`if (!params.origin)` check. -/
def originErrs (q : List (String × String)) : List String :=
  match originField q with
  | some _ => []
  | none => [originMsg]

/-- `params.width` after lines 110-111. -/
def widthField (q : List (String × String)) : JsNum :=
  match getParam q "width" with
  | some s => jsParseInt s
  | none => JsNum.fin 0

/-- Errors contributed by lines 112-114: pushed when `!(width > -1)`, so an
unparsable (NaN) width is rejected. -/
def widthErrs (q : List (String × String)) : List String :=
  match getParam q "width" with
  | some s => if jsGt (jsParseInt s) (JsNum.fin (-1)) then [] else [widthMsg]
  | none => []

/-- `params.height` after lines 117-118. -/
def heightField (q : List (String × String)) : JsNum :=
  match getParam q "height" with
  | some s => jsParseInt s
  | none => JsNum.fin 0

/-- Errors contributed by lines 119-121. -/
def heightErrs (q : List (String × String)) : List String :=
  match getParam q "height" with
  | some s => if jsGt (jsParseInt s) (JsNum.fin (-1)) then [] else [heightMsg]
  | none => []

/-- Errors contributed by lines 124-126: `!(width || height)` on the stored
(possibly NaN) values. -/
def sizeErrs (q : List (String × String)) : List String :=
  if jsTruthy (widthField q) || jsTruthy (heightField q) then [] else [sizeMsg]

/-- `params.dx` after lines 128-129. -/
def dxField (q : List (String × String)) : JsNum :=
  match getParam q "dx" with
  | some s => jsParseFloat s
  | none => JsNum.fin 0

/-- Errors contributed by lines 130-132: pushed when
`!(dx >= -1 || dx <= 1)` — an OR of the two half-bounds, true for every
non-NaN value, so only NaN is rejected. -/
def dxErrs (q : List (String × String)) : List String :=
  match getParam q "dx" with
  | some s =>
    if jsGe (jsParseFloat s) (JsNum.fin (-1)) || jsLe (jsParseFloat s) (JsNum.fin 1)
    then [] else [dxMsg]
  | none => []

/-- `params.dy` after lines 135-136. -/
def dyField (q : List (String × String)) : JsNum :=
  match getParam q "dy" with
  | some s => jsParseFloat s
  | none => JsNum.fin 0

/-- Errors contributed by lines 137-139 (same OR-shaped check as `dx`). -/
def dyErrs (q : List (String × String)) : List String :=
  match getParam q "dy" with
  | some s =>
    if jsGe (jsParseFloat s) (JsNum.fin (-1)) || jsLe (jsParseFloat s) (JsNum.fin 1)
    then [] else [dyMsg]
  | none => []

/-- `params.scale` after lines 142-143. -/
def scaleField (q : List (String × String)) : JsNum :=
  match getParam q "scale" with
  | some s => jsParseFloat s
  | none => JsNum.fin 1

/-- Errors contributed by lines 144-146: `!(scale > 0 || scale <= 10)`. -/
def scaleErrs (q : List (String × String)) : List String :=
  match getParam q "scale" with
  | some s =>
    if jsGt (jsParseFloat s) (JsNum.fin 0) || jsLe (jsParseFloat s) (JsNum.fin 10)
    then [] else [scaleMsg]
  | none => []

/-- `params.mode` after lines 149-151: lowercased parameter, default `""`. -/
def modeField (q : List (String × String)) : String :=
  match getParam q "mode" with
  | some s => jsToLower s
  | none => ""

/-- Errors contributed by lines 153-155: the unconditional membership check
(so an absent mode is itself an error). -/
def modeErrs (q : List (String × String)) : List String :=
  if modeField q ∈ VALID_MODES then [] else [modeMsg]

/-- `params.bg` after lines 157-164: the `getColor` result when truthy,
otherwise the default `[]`. -/
def bgField (q : List (String × String)) : List JsNum :=
  match getParam q "bg" with
  | some s =>
    match getColor (jsToLower s) with
    | some l => l
    | none => []
  | none => []

/-- Errors contributed by lines 157-164: pushed only when `getColor`
returns `undefined`. -/
def bgErrs (q : List (String × String)) : List String :=
  match getParam q "bg" with
  | some s =>
    match getColor (jsToLower s) with
    | some _ => []
    | none => [bgMsg]
  | none => []

/-- The validated transform specification built by `getParams`
(lines 66-78): one field per query parameter plus the accumulated error
list. -/
structure TransformSpec where
  bg : List JsNum
  dx : JsNum
  dy : JsNum
  errors : List String
  format : String
  height : JsNum
  mode : String
  origin : Option String
  quality : JsNum
  scale : JsNum
  width : JsNum
deriving DecidableEq

/-- `getParams` (lines 64-167): each field is parsed independently and the
errors are accumulated in the source's push order. -/
def getParams (req : Request) : TransformSpec :=
  { bg := bgField req.query
    dx := dxField req.query
    dy := dyField req.query
    errors := formatErrs req.path ++ qualityErrs req.query ++ originErrs req.query
      ++ widthErrs req.query ++ heightErrs req.query ++ sizeErrs req.query
      ++ dxErrs req.query ++ dyErrs req.query ++ scaleErrs req.query
      ++ modeErrs req.query ++ bgErrs req.query
    format := formatField req.path
    height := heightField req.query
    mode := modeField req.query
    origin := originField req.query
    quality := qualityField req.query
    scale := scaleField req.query
    width := widthField req.query }

/-! ## Orchestration (`handleRequest`, lines 5-59)

The platform collaborators are modelled explicitly: the shared cache
`caches.default` is an association list from cache keys to responses (a put
prepends, a match takes the newest entry), `fetch` and the wasm engine
`process_image` are parameters of `handleRequest`, and every observable
side effect of a run is recorded in an event trace. -/

/-- An HTTP body: either text or raw bytes. -/
inductive Body where
  | text (s : String)
  | bytes (b : List Nat)
deriving DecidableEq

/-- An HTTP response: status, `Content-type` header, body. -/
structure Response where
  status : Nat
  contentType : String
  body : Body
deriving DecidableEq

/-- `originRes.arrayBuffer()`: the response body as bytes. -/
def asBytes : Body → List Nat
  | Body.text s => s.toList.map Char.toNat
  | Body.bytes b => b

/-- A cache key: the identity of the request stored under it.  Inbound
requests to the worker and synthesized requests against the origin URL
live in disjoint URL spaces (the worker's own host versus the origin
host). -/
inductive CacheKey where
  | inbound (path : String) (query : List (String × String))
  | originUrl (url : String)
deriving DecidableEq

/-- The shared cache `caches.default`. -/
abbrev Cache := List (CacheKey × Response)

/-- `cache.match(k)`: the most recently stored response under `k`. -/
def lookupCache (c : Cache) (k : CacheKey) : Option Response :=
  (c.find? (fun e => decide (e.1 = k))).map (fun e => e.2)

/-- `cache.put(k, r)`. -/
def putCache (c : Cache) (k : CacheKey) (r : Response) : Cache := (k, r) :: c

/-- Observable side effects of one `handleRequest` run, in order. -/
inductive Event where
  | cacheMatch (k : CacheKey)
  | originFetch (url : String)
  | processImage
  | cachePut (k : CacheKey)
deriving DecidableEq

/-- Whether an event is an origin fetch. -/
def isFetchEvent : Event → Bool
  | Event.originFetch _ => true
  | _ => false

/-- Number of origin fetches in a trace. -/
def fetchCount (t : List Event) : Nat := (t.filter isFetchEvent).length

/-- The external `process_image` collaborator: bytes and spec in,
transformed bytes (with a trailing format tag byte) or a thrown error out. -/
abbrev Engine := List Nat → TransformSpec → Except String (List Nat)

/-- The platform `fetch`: a URL in, a response or a rejection out. -/
abbrev Fetcher := String → Except String Response

/-- Response-cache key: the identity of the inbound request
(`cache.match(req)` / `cache.put(req, ...)`, lines 15 and 50). -/
def responseCacheKey (req : Request) : CacheKey :=
  CacheKey.inbound req.path req.query

/-- Origin-cache key: the identity of the synthesized request
`new Request(params.origin.toString(), req)` (line 30), determined by the
origin URL alone. -/
def originCacheKey (req : Request) : CacheKey :=
  CacheKey.originUrl (match (getParams req).origin with
    | some u => u
    | none => "")

/-- The success response assembled at lines 44-48: the engine output minus
its trailing byte, with the content type looked up from
`VALID_FORMATS[output.slice(-1)]`. -/
def mkRes (output : List Nat) : Response :=
  ⟨200, getMimeType (output.getLast?.bind (fun i => VALID_FORMATS.get? i)),
   Body.bytes output.dropLast⟩

/-- Lines 43-57: consume the origin response, run the engine inside the
`try`, and on success populate the response cache (and the origin cache
when the origin was actually fetched); an engine throw is caught and
converted to a 200 text response with nothing cached. -/
def finishTransform (engine : Engine) (cache : Cache) (k ko : CacheKey)
    (params : TransformSpec) (originRes : Response) (fetched : Bool) :
    Response × Cache × List Event :=
  match engine (asBytes originRes.body) params with
  | Except.error e => (⟨200, "text/plain", Body.text e⟩, cache, [Event.processImage])
  | Except.ok output =>
    let res := mkRes output
    let cache1 := putCache cache k res
    let cache2 := if fetched then putCache cache1 ko originRes else cache1
    (res, cache2,
     Event.processImage :: Event.cachePut k :: (if fetched then [Event.cachePut ko] else []))

/-- `handleRequest` (lines 5-59): method gate, response-cache probe,
validation, origin-cache probe, origin fetch, transform, cache population.
Returns the response, the final cache, and the event trace. -/
def handleRequest (engine : Engine) (fetchFn : Fetcher) (cache : Cache) (req : Request) :
    Response × Cache × List Event :=
  if req.method ≠ "GET" then
    (⟨405, "text/plain", Body.text "http method not allowed"⟩, cache, [])
  else
    let k := responseCacheKey req
    match lookupCache cache k with
    | some res => (res, cache, [Event.cacheMatch k])
    | none =>
      let params := getParams req
      match params.errors with
      | e :: es =>
        (⟨400, "text/plain", Body.text (String.intercalate "\r\n" (e :: es))⟩, cache,
         [Event.cacheMatch k])
      | [] =>
        let originUrl := match params.origin with
          | some u => u
          | none => ""
        let ko := CacheKey.originUrl originUrl
        match lookupCache cache ko with
        | some originRes =>
          let r := finishTransform engine cache k ko params originRes false
          (r.1, r.2.1, Event.cacheMatch k :: Event.cacheMatch ko :: r.2.2)
        | none =>
          match fetchFn originUrl with
          | Except.error err =>
            (⟨200, "text/plain", Body.text err⟩, cache,
             [Event.cacheMatch k, Event.cacheMatch ko, Event.originFetch originUrl])
          | Except.ok originRes =>
            let r := finishTransform engine cache k ko params originRes true
            (r.1, r.2.1,
             Event.cacheMatch k :: Event.cacheMatch ko :: Event.originFetch originUrl :: r.2.2)

/-! ## Helper lemmas about the error list -/

/-- The format error message always starts with the letter i. -/
theorem formatMsg_head (f : String) : (formatMsg f).data.head? = some 'i' := rfl

/-- A string that does not start with i is never a format error. -/
theorem not_mem_formatErrs_of_head (path m : String) (hm : m.data.head? ≠ some 'i') :
    m ∉ formatErrs path := by
  unfold formatErrs
  split
  · split
    · simp
    · intro hmem
      simp only [List.mem_singleton] at hmem
      exact hm (hmem ▸ formatMsg_head _)
  · simp

/-- The only quality error is `qualityMsg`. -/
theorem mem_qualityErrs {q : List (String × String)} {m : String}
    (h : m ∈ qualityErrs q) : m = qualityMsg := by
  unfold qualityErrs at h
  split at h
  · split at h <;> simp_all
  · simp_all

/-- The only origin error is `originMsg`. -/
theorem mem_originErrs {q : List (String × String)} {m : String}
    (h : m ∈ originErrs q) : m = originMsg := by
  unfold originErrs at h
  split at h <;> simp_all

/-- The only width error is `widthMsg`. -/
theorem mem_widthErrs {q : List (String × String)} {m : String}
    (h : m ∈ widthErrs q) : m = widthMsg := by
  unfold widthErrs at h
  split at h
  · split at h <;> simp_all
  · simp_all

/-- The only height error is `heightMsg`. -/
theorem mem_heightErrs {q : List (String × String)} {m : String}
    (h : m ∈ heightErrs q) : m = heightMsg := by
  unfold heightErrs at h
  split at h
  · split at h <;> simp_all
  · simp_all

/-- The only width-or-height error is `sizeMsg`. -/
theorem mem_sizeErrs {q : List (String × String)} {m : String}
    (h : m ∈ sizeErrs q) : m = sizeMsg := by
  unfold sizeErrs at h
  split at h <;> simp_all

/-- The only dx error is `dxMsg`. -/
theorem mem_dxErrs {q : List (String × String)} {m : String}
    (h : m ∈ dxErrs q) : m = dxMsg := by
  unfold dxErrs at h
  split at h
  · split at h <;> simp_all
  · simp_all

/-- The only dy error is `dyMsg`. -/
theorem mem_dyErrs {q : List (String × String)} {m : String}
    (h : m ∈ dyErrs q) : m = dyMsg := by
  unfold dyErrs at h
  split at h
  · split at h <;> simp_all
  · simp_all

/-- The only scale error is `scaleMsg`. -/
theorem mem_scaleErrs {q : List (String × String)} {m : String}
    (h : m ∈ scaleErrs q) : m = scaleMsg := by
  unfold scaleErrs at h
  split at h
  · split at h <;> simp_all
  · simp_all

/-- The only mode error is `modeMsg`. -/
theorem mem_modeErrs {q : List (String × String)} {m : String}
    (h : m ∈ modeErrs q) : m = modeMsg := by
  unfold modeErrs at h
  split at h <;> simp_all

/-- The only bg error is `bgMsg`. -/
theorem mem_bgErrs {q : List (String × String)} {m : String}
    (h : m ∈ bgErrs q) : m = bgMsg := by
  unfold bgErrs at h
  split at h
  · split at h <;> simp_all
  · simp_all

/-- A message absent from every segment is absent from the error list. -/
theorem not_mem_errors (req : Request) (m : String)
    (h0 : m ∉ formatErrs req.path)
    (h1 : m ∉ qualityErrs req.query)
    (h2 : m ∉ originErrs req.query)
    (h3 : m ∉ widthErrs req.query)
    (h4 : m ∉ heightErrs req.query)
    (h5 : m ∉ sizeErrs req.query)
    (h6 : m ∉ dxErrs req.query)
    (h7 : m ∉ dyErrs req.query)
    (h8 : m ∉ scaleErrs req.query)
    (h9 : m ∉ modeErrs req.query)
    (h10 : m ∉ bgErrs req.query) :
    m ∉ (getParams req).errors := by
  simp only [getParams, List.mem_append]
  tauto

/-- Any segment member is in the error list. -/
theorem mem_errors_of_mem_widthErrs (req : Request) (m : String)
    (h : m ∈ widthErrs req.query) : m ∈ (getParams req).errors := by
  simp only [getParams, List.mem_append]
  tauto

/-- Any height-segment member is in the error list. -/
theorem mem_errors_of_mem_heightErrs (req : Request) (m : String)
    (h : m ∈ heightErrs req.query) : m ∈ (getParams req).errors := by
  simp only [getParams, List.mem_append]
  tauto

/-- A spec with an empty error list has a parsed origin (otherwise the
unconditional origin check would have pushed `originMsg`). -/
theorem origin_some_of_no_errors (req : Request) (he : (getParams req).errors = []) :
    ∃ u, (getParams req).origin = some u := by
  cases ho : (getParams req).origin with
  | some u => exact ⟨u, rfl⟩
  | none =>
    exfalso
    have hseg : originErrs req.query = [originMsg] := by
      unfold originErrs
      have ho2 : originField req.query = none := ho
      rw [ho2]
    have hmem : originMsg ∈ (getParams req).errors := by
      simp only [getParams, List.mem_append, hseg, List.mem_singleton]
      tauto
    rw [he] at hmem
    simp at hmem

/-! ## Run characterizations of `handleRequest` -/

/-- A full success run on a response-cache and origin-cache miss: the origin
is fetched once, the engine runs once, and both caches are populated. -/
theorem handleRequest_success (E : Engine) (F : Fetcher) (c : Cache) (req : Request)
    (u : String) (orr : Response) (out : List Nat)
    (hm : req.method = "GET")
    (hrc : lookupCache c (responseCacheKey req) = none)
    (he : (getParams req).errors = [])
    (ho : (getParams req).origin = some u)
    (hoc : lookupCache c (CacheKey.originUrl u) = none)
    (hf : F u = Except.ok orr)
    (heng : E (asBytes orr.body) (getParams req) = Except.ok out) :
    handleRequest E F c req =
      (mkRes out,
       putCache (putCache c (responseCacheKey req) (mkRes out)) (CacheKey.originUrl u) orr,
       [Event.cacheMatch (responseCacheKey req), Event.cacheMatch (CacheKey.originUrl u),
        Event.originFetch u, Event.processImage, Event.cachePut (responseCacheKey req),
        Event.cachePut (CacheKey.originUrl u)]) := by
  simp [handleRequest, hm, hrc, he, ho, hoc, hf, heng, finishTransform]

/-- A success run on a response-cache miss but an origin-cache hit: no fetch
happens and only the response cache is populated. -/
theorem handleRequest_originHit (E : Engine) (F : Fetcher) (c : Cache) (req : Request)
    (u : String) (orr : Response) (out : List Nat)
    (hm : req.method = "GET")
    (hrc : lookupCache c (responseCacheKey req) = none)
    (he : (getParams req).errors = [])
    (ho : (getParams req).origin = some u)
    (hoc : lookupCache c (CacheKey.originUrl u) = some orr)
    (heng : E (asBytes orr.body) (getParams req) = Except.ok out) :
    handleRequest E F c req =
      (mkRes out, putCache c (responseCacheKey req) (mkRes out),
       [Event.cacheMatch (responseCacheKey req), Event.cacheMatch (CacheKey.originUrl u),
        Event.processImage, Event.cachePut (responseCacheKey req)]) := by
  simp [handleRequest, hm, hrc, he, ho, hoc, heng, finishTransform]

/-! ## Lemmas about individual checks -/

/-- The OR-shaped dx/dy bound check is true for every finite value: every
rational is at least -1 or at most 1. -/
theorem or_bound_check_true (q : Rat) :
    (jsGe (JsNum.fin q) (JsNum.fin (-1)) || jsLe (JsNum.fin q) (JsNum.fin 1)) = true := by
  simp only [jsGe, jsLe, Bool.or_eq_true, decide_eq_true_eq]
  rcases le_or_lt q 1 with h | h
  · right; exact h
  · left; linarith

/-- A finite dx never produces the dx error. -/
theorem dxErrs_nil_of_fin (q : List (String × String)) (s : String) (a : Rat)
    (hs : getParam q "dx" = some s) (hf : jsParseFloat s = JsNum.fin a) :
    dxErrs q = [] := by
  unfold dxErrs
  rw [hs]
  simp only
  rw [hf, or_bound_check_true]
  simp

/-- A finite dy never produces the dy error. -/
theorem dyErrs_nil_of_fin (q : List (String × String)) (s : String) (a : Rat)
    (hs : getParam q "dy" = some s) (hf : jsParseFloat s = JsNum.fin a) :
    dyErrs q = [] := by
  unfold dyErrs
  rw [hs]
  simp only
  rw [hf, or_bound_check_true]
  simp

/-- Changing only the value stored under the `quality` key changes no other
parameter lookup. -/
theorem getParam_quality_swap (pre post : List (String × String)) (v w name : String)
    (h : name ≠ "quality") :
    getParam (pre ++ ("quality", v) :: post) name
      = getParam (pre ++ ("quality", w) :: post) name := by
  unfold getParam
  induction pre with
  | nil =>
    have hq : ¬("quality" = name) := fun e => h e.symm
    simp [List.find?, hq]
  | cons hd tl ih =>
    by_cases hc : hd.1 = name
    · simp [List.find?, hc]
    · simp only [List.cons_append, List.find?, decide_eq_false hc] at ih ⊢
      exact ih

/-- Changing only the quality value leaves the parsed origin unchanged. -/
theorem originField_quality_swap (pre post : List (String × String)) (v w : String) :
    originField (pre ++ ("quality", v) :: post) = originField (pre ++ ("quality", w) :: post) := by
  unfold originField
  rw [getParam_quality_swap pre post v w "origin" (by decide)]

/-! ## Concrete collaborator doubles used by witnesses -/

/-- An engine double that always succeeds, emitting payload `[7, 7]` with
trailing format tag `2` (the index of `jpeg` in `VALID_FORMATS`). -/
def okEngine : Engine := fun _ _ => Except.ok [7, 7, 2]

/-- A fetcher double that always succeeds. -/
def okFetcher : Fetcher := fun _ => Except.ok ⟨200, "img", Body.bytes [9]⟩

/-- A fetcher double that always rejects. -/
def failFetcher : Fetcher := fun _ => Except.error "network error"

/-! ## The claims -/

/-- Claim C1: for every GET request that misses the response cache and whose
validated TransformSpec has a non-empty errors sequence, `handleRequest`
returns a 400 response whose plain-text body is the errors joined by
newlines, and neither the origin fetch nor the engine is ever invoked (the
event trace holds only the response-cache probe). -/
theorem C1_errors_short_circuit (E : Engine) (F : Fetcher) (c : Cache) (req : Request)
    (hm : req.method = "GET")
    (hrc : lookupCache c (responseCacheKey req) = none)
    (he : (getParams req).errors ≠ []) :
    handleRequest E F c req =
      (⟨400, "text/plain", Body.text (String.intercalate "\r\n" (getParams req).errors)⟩, c,
       [Event.cacheMatch (responseCacheKey req)])
    ∧ (∀ e ∈ (handleRequest E F c req).2.2, isFetchEvent e = false ∧ e ≠ Event.processImage) := by
  have hmain : handleRequest E F c req =
      (⟨400, "text/plain", Body.text (String.intercalate "\r\n" (getParams req).errors)⟩, c,
       [Event.cacheMatch (responseCacheKey req)]) := by
    cases herr : (getParams req).errors with
    | nil => exact absurd herr he
    | cons a l => simp [handleRequest, hm, hrc, herr]
  refine ⟨hmain, ?_⟩
  rw [hmain]
  intro e hmem
  simp only [List.mem_singleton] at hmem
  subst hmem
  exact ⟨rfl, by simp⟩

/-- Witness for C1: a GET request with no parameters at all fails validation
and is answered 400 with no fetch and no transform. -/
theorem C1_witness :
    handleRequest okEngine failFetcher [] ⟨"GET", "/a.png", []⟩ =
      (⟨400, "text/plain",
        Body.text (String.intercalate "\r\n" (getParams ⟨"GET", "/a.png", []⟩).errors)⟩, [],
       [Event.cacheMatch (responseCacheKey ⟨"GET", "/a.png", []⟩)])
    ∧ (∀ e ∈ (handleRequest okEngine failFetcher [] ⟨"GET", "/a.png", []⟩).2.2,
        isFetchEvent e = false ∧ e ≠ Event.processImage) :=
  C1_errors_short_circuit okEngine failFetcher [] ⟨"GET", "/a.png", []⟩ rfl rfl (by decide)

/-- Claim C2 (against the code): `bg=f00` is expanded to `ff0000`, but the
loop in `getColor` slices characters 0-1 on every iteration, so the code
produces the triple (255, 255, 255), not the (255, 0, 0) the spec states. -/
theorem C2_bg_parsing_bug :
    getColor "f00" = some [JsNum.fin 255, JsNum.fin 255, JsNum.fin 255]
    ∧ (getParams ⟨"GET", "/a.png", [("bg", "f00")]⟩).bg
        = [JsNum.fin 255, JsNum.fin 255, JsNum.fin 255]
    ∧ getColor "f00" ≠ some [JsNum.fin 255, JsNum.fin 0, JsNum.fin 0] := by
  refine ⟨by decide, by decide, by decide⟩

/-- Counterexample to claim C3: with `quality=abc` (present but unparsable)
the quality error is not appended — NaN fails both range comparisons, so
the error branch is never taken — and the quality field holds NaN. -/
theorem C3_counterexample :
    "quality must be a number between 40 and 100"
      ∉ (getParams ⟨"GET", "/a.png", [("quality", "abc"), ("origin", "http://o/i"),
          ("width", "10"), ("mode", "fill")]⟩).errors
    ∧ (getParams ⟨"GET", "/a.png", [("quality", "abc"), ("origin", "http://o/i"),
          ("width", "10"), ("mode", "fill")]⟩).quality = JsNum.nan := by decide

/-- Claim C3 as amended: for every request whose quality parameter is
present but unparsable, `parseInt` yields NaN, NaN compares false against
both bounds, so no quality error is appended and the quality field holds
NaN. -/
theorem C3_amended (req : Request) (s : String)
    (hs : getParam req.query "quality" = some s)
    (hn : jsParseInt s = JsNum.nan) :
    "quality must be a number between 40 and 100" ∉ (getParams req).errors
    ∧ (getParams req).quality = JsNum.nan := by
  constructor
  · apply not_mem_errors
    · exact not_mem_formatErrs_of_head _ _ (by decide)
    · intro h
      unfold qualityErrs at h
      rw [hs] at h
      simp only at h
      rw [hn] at h
      simp [jsGt, jsLt] at h
    · intro h; exact absurd (mem_originErrs h) (by decide)
    · intro h; exact absurd (mem_widthErrs h) (by decide)
    · intro h; exact absurd (mem_heightErrs h) (by decide)
    · intro h; exact absurd (mem_sizeErrs h) (by decide)
    · intro h; exact absurd (mem_dxErrs h) (by decide)
    · intro h; exact absurd (mem_dyErrs h) (by decide)
    · intro h; exact absurd (mem_scaleErrs h) (by decide)
    · intro h; exact absurd (mem_modeErrs h) (by decide)
    · intro h; exact absurd (mem_bgErrs h) (by decide)
  · show qualityField req.query = JsNum.nan
    unfold qualityField
    rw [hs]
    simp only
    exact hn

/-- Witness for the amended C3 at `quality=banana`. -/
theorem C3_amended_witness :
    "quality must be a number between 40 and 100"
      ∉ (getParams ⟨"GET", "/a.png", [("quality", "banana")]⟩).errors
    ∧ (getParams ⟨"GET", "/a.png", [("quality", "banana")]⟩).quality = JsNum.nan :=
  C3_amended ⟨"GET", "/a.png", [("quality", "banana")]⟩ "banana" rfl (by decide)

/-- Claim C4 (against the code): `bg=zzzzzz` is six characters, so the
length checks pass; `parseInt("zz", 16)` is NaN, but the guard `hex === NaN`
is never true, so `getColor` returns a truthy array of NaNs and no bg error
is appended. -/
theorem C4_bg_invalid_hex_not_rejected :
    getColor "zzzzzz" = some [JsNum.nan, JsNum.nan, JsNum.nan]
    ∧ "bg must be a valid hex color between 000 and ffffff"
        ∉ (getParams ⟨"GET", "/a.png", [("bg", "zzzzzz")]⟩).errors
    ∧ (getParams ⟨"GET", "/a.png", [("bg", "zzzzzz")]⟩).bg
        = [JsNum.nan, JsNum.nan, JsNum.nan] := by
  refine ⟨by decide, by decide, by decide⟩

/-- Counterexample to claim C5: the MIME lookup has no `jpeg` key, so
`jpeg` maps to `application/octet-stream`, not `image/jpeg`. -/
theorem C5_counterexample :
    getMimeType (some "jpeg") = "application/octet-stream"
    ∧ getMimeType (some "jpeg") ≠ "image/jpeg" := by decide

/-- Claim C5 as amended: png maps to `image/png`, jpg to `image/jpeg`, and
everything else — including `jpeg` — to `application/octet-stream`; a
transform whose trailing tag selects `jpeg` (index 2) therefore yields a
success response with Content-type `application/octet-stream`. -/
theorem C5_amended (f : String) (h1 : f ≠ "png") (h2 : f ≠ "jpg") :
    getMimeType (some "png") = "image/png"
    ∧ getMimeType (some "jpg") = "image/jpeg"
    ∧ getMimeType (some f) = "application/octet-stream"
    ∧ getMimeType none = "application/octet-stream"
    ∧ (handleRequest okEngine okFetcher []
        ⟨"GET", "/x.jpg", [("origin", "http://o/a"), ("width", "10"), ("mode", "fill")]⟩).1
      = ⟨200, "application/octet-stream", Body.bytes [7, 7]⟩ := by
  have g1 : ¬("png" = f) := fun e => h1 e.symm
  have g2 : ¬("jpg" = f) := fun e => h2 e.symm
  refine ⟨rfl, rfl, ?_, rfl, by decide⟩
  simp [getMimeType, List.find?, g1, g2]

/-- Witness for the amended C5 at the format name `jpeg`. -/
theorem C5_amended_witness :
    getMimeType (some "png") = "image/png"
    ∧ getMimeType (some "jpg") = "image/jpeg"
    ∧ getMimeType (some "jpeg") = "application/octet-stream"
    ∧ getMimeType none = "application/octet-stream"
    ∧ (handleRequest okEngine okFetcher []
        ⟨"GET", "/x.jpg", [("origin", "http://o/a"), ("width", "10"), ("mode", "fill")]⟩).1
      = ⟨200, "application/octet-stream", Body.bytes [7, 7]⟩ :=
  C5_amended "jpeg" (by decide) (by decide)

/-- Claim C6: whenever the dx (or dy) parameter parses to a finite value,
no dx (or dy) range error is appended, even for values outside [-1, 1]:
the OR-shaped bound check is true for every finite number. -/
theorem C6_finite_dx_dy_pass (req : Request) :
    (∀ s a, getParam req.query "dx" = some s → jsParseFloat s = JsNum.fin a →
      "dx must be a number between -1.0 and 1.0 (default: 0)" ∉ (getParams req).errors)
    ∧ (∀ s a, getParam req.query "dy" = some s → jsParseFloat s = JsNum.fin a →
      "dy must be between -1.0 and 1.0 (default: 0)" ∉ (getParams req).errors) := by
  constructor
  · intro s a hs hf
    apply not_mem_errors
    · exact not_mem_formatErrs_of_head _ _ (by decide)
    · intro h; exact absurd (mem_qualityErrs h) (by decide)
    · intro h; exact absurd (mem_originErrs h) (by decide)
    · intro h; exact absurd (mem_widthErrs h) (by decide)
    · intro h; exact absurd (mem_heightErrs h) (by decide)
    · intro h; exact absurd (mem_sizeErrs h) (by decide)
    · rw [dxErrs_nil_of_fin req.query s a hs hf]; simp
    · intro h; exact absurd (mem_dyErrs h) (by decide)
    · intro h; exact absurd (mem_scaleErrs h) (by decide)
    · intro h; exact absurd (mem_modeErrs h) (by decide)
    · intro h; exact absurd (mem_bgErrs h) (by decide)
  · intro s a hs hf
    apply not_mem_errors
    · exact not_mem_formatErrs_of_head _ _ (by decide)
    · intro h; exact absurd (mem_qualityErrs h) (by decide)
    · intro h; exact absurd (mem_originErrs h) (by decide)
    · intro h; exact absurd (mem_widthErrs h) (by decide)
    · intro h; exact absurd (mem_heightErrs h) (by decide)
    · intro h; exact absurd (mem_sizeErrs h) (by decide)
    · intro h; exact absurd (mem_dxErrs h) (by decide)
    · rw [dyErrs_nil_of_fin req.query s a hs hf]; simp
    · intro h; exact absurd (mem_scaleErrs h) (by decide)
    · intro h; exact absurd (mem_modeErrs h) (by decide)
    · intro h; exact absurd (mem_bgErrs h) (by decide)

/-- Witness for C6 at `dx=5` and `dy=-3`, both far outside [-1, 1]. -/
theorem C6_witness :
    "dx must be a number between -1.0 and 1.0 (default: 0)"
      ∉ (getParams ⟨"GET", "/a.png", [("dx", "5"), ("dy", "-3")]⟩).errors
    ∧ "dy must be between -1.0 and 1.0 (default: 0)"
      ∉ (getParams ⟨"GET", "/a.png", [("dx", "5"), ("dy", "-3")]⟩).errors :=
  ⟨(C6_finite_dx_dy_pass ⟨"GET", "/a.png", [("dx", "5"), ("dy", "-3")]⟩).1
      "5" 5 rfl (by decide),
   (C6_finite_dx_dy_pass ⟨"GET", "/a.png", [("dx", "5"), ("dy", "-3")]⟩).2
      "-3" (-3) rfl (by decide)⟩

/-- Claim C7: two valid GET requests differing only in the quality value
have distinct response-cache keys but the same origin-cache key, and
running them back to back against an initially empty cache (with a
succeeding fetcher and engine) fetches the origin at most once. -/
theorem C7_quality_variants (E : Engine) (F : Fetcher)
    (hE : ∀ d s, ∃ o, E d s = Except.ok o)
    (hF : ∀ u, ∃ r, F u = Except.ok r)
    (path v1 v2 : String) (pre post : List (String × String))
    (hv : v1 ≠ v2)
    (he1 : (getParams ⟨"GET", path, pre ++ ("quality", v1) :: post⟩).errors = [])
    (he2 : (getParams ⟨"GET", path, pre ++ ("quality", v2) :: post⟩).errors = []) :
    responseCacheKey ⟨"GET", path, pre ++ ("quality", v1) :: post⟩
      ≠ responseCacheKey ⟨"GET", path, pre ++ ("quality", v2) :: post⟩
    ∧ originCacheKey ⟨"GET", path, pre ++ ("quality", v1) :: post⟩
      = originCacheKey ⟨"GET", path, pre ++ ("quality", v2) :: post⟩
    ∧ fetchCount ((handleRequest E F [] ⟨"GET", path, pre ++ ("quality", v1) :: post⟩).2.2
        ++ (handleRequest E F
             (handleRequest E F [] ⟨"GET", path, pre ++ ("quality", v1) :: post⟩).2.1
             ⟨"GET", path, pre ++ ("quality", v2) :: post⟩).2.2) ≤ 1 := by
  have hkey : responseCacheKey ⟨"GET", path, pre ++ ("quality", v1) :: post⟩
      ≠ responseCacheKey ⟨"GET", path, pre ++ ("quality", v2) :: post⟩ := by
    simp only [responseCacheKey, ne_eq, CacheKey.inbound.injEq, not_and]
    intro _ hq
    have := List.append_cancel_left hq
    simp only [List.cons.injEq, Prod.mk.injEq] at this
    exact hv this.1.2
  have horig : (getParams ⟨"GET", path, pre ++ ("quality", v1) :: post⟩).origin
      = (getParams ⟨"GET", path, pre ++ ("quality", v2) :: post⟩).origin := by
    show originField (pre ++ ("quality", v1) :: post)
      = originField (pre ++ ("quality", v2) :: post)
    exact originField_quality_swap pre post v1 v2
  refine ⟨hkey, ?_, ?_⟩
  · simp only [originCacheKey, horig]
  · obtain ⟨u, ho1⟩ := origin_some_of_no_errors _ he1
    have ho2 : (getParams ⟨"GET", path, pre ++ ("quality", v2) :: post⟩).origin = some u := by
      rw [← horig]; exact ho1
    obtain ⟨orr, hfo⟩ := hF u
    obtain ⟨out1, heng1⟩ := hE (asBytes orr.body)
      (getParams ⟨"GET", path, pre ++ ("quality", v1) :: post⟩)
    have run1 := handleRequest_success E F [] ⟨"GET", path, pre ++ ("quality", v1) :: post⟩
      u orr out1 rfl rfl he1 ho1 rfl hfo heng1
    obtain ⟨out2, heng2⟩ := hE (asBytes orr.body)
      (getParams ⟨"GET", path, pre ++ ("quality", v2) :: post⟩)
    have hko : CacheKey.originUrl u
        ≠ responseCacheKey ⟨"GET", path, pre ++ ("quality", v2) :: post⟩ := by
      simp [responseCacheKey]
    have hrc2 : lookupCache
        (handleRequest E F [] ⟨"GET", path, pre ++ ("quality", v1) :: post⟩).2.1
        (responseCacheKey ⟨"GET", path, pre ++ ("quality", v2) :: post⟩) = none := by
      rw [run1]
      simp [lookupCache, putCache, List.find?, hko, hkey]
    have hoc2 : lookupCache
        (handleRequest E F [] ⟨"GET", path, pre ++ ("quality", v1) :: post⟩).2.1
        (CacheKey.originUrl u) = some orr := by
      rw [run1]
      simp [lookupCache, putCache, List.find?]
    have run2 := handleRequest_originHit E F
      (handleRequest E F [] ⟨"GET", path, pre ++ ("quality", v1) :: post⟩).2.1
      ⟨"GET", path, pre ++ ("quality", v2) :: post⟩ u orr out2 rfl hrc2 he2 ho2 hoc2 heng2
    rw [run2]
    conv_lhs => rw [run1]
    simp [fetchCount, isFetchEvent]

/-- Witness for C7: quality 50 versus quality 90 on an otherwise identical
valid request. -/
theorem C7_witness :
    responseCacheKey ⟨"GET", "/x.png",
        [("origin", "http://o/i.png"), ("width", "10"), ("mode", "fill"), ("quality", "50")]⟩
      ≠ responseCacheKey ⟨"GET", "/x.png",
        [("origin", "http://o/i.png"), ("width", "10"), ("mode", "fill"), ("quality", "90")]⟩
    ∧ originCacheKey ⟨"GET", "/x.png",
        [("origin", "http://o/i.png"), ("width", "10"), ("mode", "fill"), ("quality", "50")]⟩
      = originCacheKey ⟨"GET", "/x.png",
        [("origin", "http://o/i.png"), ("width", "10"), ("mode", "fill"), ("quality", "90")]⟩
    ∧ fetchCount ((handleRequest okEngine okFetcher [] ⟨"GET", "/x.png",
        [("origin", "http://o/i.png"), ("width", "10"), ("mode", "fill"), ("quality", "50")]⟩).2.2
        ++ (handleRequest okEngine okFetcher
             (handleRequest okEngine okFetcher [] ⟨"GET", "/x.png",
               [("origin", "http://o/i.png"), ("width", "10"), ("mode", "fill"),
                ("quality", "50")]⟩).2.1
             ⟨"GET", "/x.png",
               [("origin", "http://o/i.png"), ("width", "10"), ("mode", "fill"),
                ("quality", "90")]⟩).2.2) ≤ 1 :=
  C7_quality_variants okEngine okFetcher
    (fun _ _ => ⟨[7, 7, 2], rfl⟩) (fun _ => ⟨⟨200, "img", Body.bytes [9]⟩, rfl⟩)
    "/x.png" "50" "90"
    [("origin", "http://o/i.png"), ("width", "10"), ("mode", "fill")] []
    (by decide) (by decide) (by decide)

/-- Claim C8: a non-GET request is answered 405 with a plain-text body, with
an empty event trace — no cache lookup, no fetch, no transform. -/
theorem C8_method_gate (E : Engine) (F : Fetcher) (c : Cache) (req : Request)
    (hm : req.method ≠ "GET") :
    handleRequest E F c req =
      (⟨405, "text/plain", Body.text "http method not allowed"⟩, c, []) := by
  simp [handleRequest, hm]

/-- Witness for C8 at a POST request carrying query parameters. -/
theorem C8_witness :
    handleRequest okEngine okFetcher []
        ⟨"POST", "/x.png", [("origin", "http://o/i.png"), ("width", "10")]⟩ =
      (⟨405, "text/plain", Body.text "http method not allowed"⟩, [], []) :=
  C8_method_gate okEngine okFetcher []
    ⟨"POST", "/x.png", [("origin", "http://o/i.png"), ("width", "10")]⟩ (by decide)

/-- Claim C9: the validator is total — `getParams` is a Lean function, so it
never raises — and every field holds either its deterministic default
(bg=[], dx=0, dy=0, format=empty, height=0, mode=empty, origin=unset,
quality=90, scale=1, width=0) or the value parsed from its parameter. -/
theorem C9_validator_total (req : Request) :
    ((getParams req).format = match getUrlExt req.path with
      | some f => f
      | none => "")
    ∧ ((getParams req).quality = match getParam req.query "quality" with
      | some s => jsParseInt s
      | none => JsNum.fin 90)
    ∧ ((getParams req).origin = match getParam req.query "origin" with
      | some s => jsParseURL s
      | none => none)
    ∧ ((getParams req).width = match getParam req.query "width" with
      | some s => jsParseInt s
      | none => JsNum.fin 0)
    ∧ ((getParams req).height = match getParam req.query "height" with
      | some s => jsParseInt s
      | none => JsNum.fin 0)
    ∧ ((getParams req).dx = match getParam req.query "dx" with
      | some s => jsParseFloat s
      | none => JsNum.fin 0)
    ∧ ((getParams req).dy = match getParam req.query "dy" with
      | some s => jsParseFloat s
      | none => JsNum.fin 0)
    ∧ ((getParams req).scale = match getParam req.query "scale" with
      | some s => jsParseFloat s
      | none => JsNum.fin 1)
    ∧ ((getParams req).mode = match getParam req.query "mode" with
      | some s => jsToLower s
      | none => "")
    ∧ ((getParams req).bg = match getParam req.query "bg" with
      | some s =>
        match getColor (jsToLower s) with
        | some l => l
        | none => []
      | none => []) :=
  ⟨rfl, rfl, rfl, rfl, rfl, rfl, rfl, rfl, rfl, rfl⟩

/-- Claim C10: a width (or height) parameter that is present but unparsable
parses to NaN, NaN fails the `value > -1` check, and the width (or height)
error is appended — unlike quality, an unparsable size is rejected. -/
theorem C10_nan_size_rejected (req : Request) (s t : String) :
    (getParam req.query "width" = some s → jsParseInt s = JsNum.nan →
      "width must be a positive number" ∈ (getParams req).errors)
    ∧ (getParam req.query "height" = some t → jsParseInt t = JsNum.nan →
      "height must be a positive number" ∈ (getParams req).errors) := by
  constructor
  · intro hs hn
    apply mem_errors_of_mem_widthErrs
    unfold widthErrs
    rw [hs]
    simp only
    rw [hn]
    simp [jsGt, widthMsg]
  · intro hs hn
    apply mem_errors_of_mem_heightErrs
    unfold heightErrs
    rw [hs]
    simp only
    rw [hn]
    simp [jsGt, heightMsg]

/-- Witness for C10 at `width=abc` and `height=zz`. -/
theorem C10_witness :
    "width must be a positive number"
      ∈ (getParams ⟨"GET", "/a.png", [("width", "abc"), ("height", "zz")]⟩).errors
    ∧ "height must be a positive number"
      ∈ (getParams ⟨"GET", "/a.png", [("width", "abc"), ("height", "zz")]⟩).errors :=
  ⟨(C10_nan_size_rejected ⟨"GET", "/a.png", [("width", "abc"), ("height", "zz")]⟩
      "abc" "zz").1 rfl (by decide),
   (C10_nan_size_rejected ⟨"GET", "/a.png", [("width", "abc"), ("height", "zz")]⟩
      "abc" "zz").2 rfl (by decide)⟩
